import Mathlib

/-!
Verification of `src/webviews/main.ts` (Vue webview compiler).

Shallow embedding of the webview compiler from the AWS Toolkit for VS Code:
`compileVueWebview`, its `show()` session lifecycle (promise resolution via
panel disposal or a validated `submit`), the per-instance event-emitter
construction, the merged `protocol` object, and `resolveWebviewHtml`.

The JavaScript runtime is modelled as follows:

* A session's pending promise is an `Option (Option S)` field: `none` while
  pending, `some none` once resolved with `undefined`, `some (some v)` once
  resolved with a submitted value `v`.  JavaScript promise semantics make a
  second `resolve` call a no-op, which `resolvePromise` encodes by keeping an
  already-present result.
* The `onDidDispose` listener registered by `show()` is a boolean flag
  (`disposeListenerActive`); `onDispose.dispose()` clears it, and disposing
  the panel fires the listener only while the flag is set.
* Validation-hook return values are abstracted to their truthiness before and
  after `await` (`JsVal`), which is all the `if (validate && (await validate))`
  test in the source observes.
* Each event handler (panel disposal, remote `submit`) runs to completion as
  one atomic step; traces are lists of such events folded over the state.
-/

namespace Webview

/-- Truthiness abstraction of the JavaScript value produced by a validation
hook: `undef` models `undefined` (in particular `params.validateSubmit?.(x)`
when no hook is declared), `jsBool b` an immediate value of truthiness `b`,
and `promise b` a thenable (itself truthy) resolving to truthiness `b`. -/
inductive JsVal where
  | undef
  | jsBool (b : Bool)
  | promise (b : Bool)
  deriving DecidableEq, Repr

/-- Truthiness of the value before awaiting: `undefined` is falsy, a promise
object is truthy. -/
def JsVal.truthy : JsVal → Bool
  | .undef => false
  | .jsBool b => b
  | .promise _ => true

/-- Truthiness of `await x`: awaiting a non-promise yields the value itself. -/
def JsVal.awaited : JsVal → Bool
  | .undef => false
  | .jsBool b => b
  | .promise b => b

/-- State of one `show()` session: the pending/resolved promise, whether the
`onDidDispose` listener registered by `show()` is still attached, and whether
the panel has been disposed. -/
structure SessionState (S : Type) where
  result : Option (Option S)
  disposeListenerActive : Bool
  panelDisposed : Bool
  deriving DecidableEq, Repr

/-- JavaScript `resolve`: resolving an already-resolved promise is a no-op. -/
def resolvePromise {S : Type} (r : Option S) (s : SessionState S) : SessionState S :=
  if s.result.isSome then s else { s with result := some r }

/-- The host delivers the panel's dispose event: the callback registered by
`panel.onDidDispose(() => resolve(undefined))` runs only while the listener
is attached. -/
def onDisposeFired {S : Type} (s : SessionState S) : SessionState S :=
  if s.disposeListenerActive then resolvePromise none s else s

/-- Disposal via `panel.dispose()` (or the user closing the panel): a no-op when the panel
is already disposed, otherwise it marks the panel disposed and fires the
dispose event. -/
def disposePanel {S : Type} (s : SessionState S) : SessionState S :=
  if s.panelDisposed then s
  else onDisposeFired { s with panelDisposed := true }

/-- The `submit` handler registered by `show()`:

```
const submit = async (response: S) => {
    const validate = params.validateSubmit?.(response)
    if (validate && (await validate)) {
        onDispose.dispose()
        panel.dispose()
        resolve(response)
    }
}
```

`validateVal` is the `const validate = params.validateSubmit?.(response)`
line: optional chaining yields `undefined` when no hook is declared. -/
def validateVal {S : Type} (validateSubmit : Option (S → JsVal)) (v : S) : JsVal :=
  match validateSubmit with
  | some f => f v
  | none => JsVal.undef

/-- The `if (validate && (await validate))` guard and the resolution sequence
`onDispose.dispose(); panel.dispose(); resolve(response)` of the `submit`
handler above. -/
def submitHandler {S : Type} (validateSubmit : Option (S → JsVal)) (v : S)
    (s : SessionState S) : SessionState S :=
  if (validateVal validateSubmit v).truthy && (validateVal validateSubmit v).awaited then
    resolvePromise (some v) (disposePanel { s with disposeListenerActive := false })
  else s

/-- Session state right after the `Promise` executor in `show()` has run:
promise pending, dispose listener attached, panel open. -/
def initialSession {S : Type} : SessionState S :=
  { result := none, disposeListenerActive := true, panelDisposed := false }

/-- External events a session can receive: the host panel being disposed, or
the remote `submit` command arriving with a value. -/
inductive SEvent (S : Type) where
  | dispose
  | submit (v : S)
  deriving DecidableEq, Repr

/-- One event step.  The `submit` handler exists only when `show()` registered
the webview server (`if (params.commands) { ... }`); without registration a
remote `submit` has no handler and changes nothing. -/
def step {S : Type} (registered : Bool) (validateSubmit : Option (S → JsVal))
    (s : SessionState S) : SEvent S → SessionState S
  | .dispose => disposePanel s
  | .submit v => if registered then submitHandler validateSubmit v s else s

/-- Fold a list of events over a session state. -/
def run {S : Type} (registered : Bool) (validateSubmit : Option (S → JsVal))
    (s : SessionState S) (evs : List (SEvent S)) : SessionState S :=
  evs.foldl (step registered validateSubmit) s

/-! ## `compileVueWebview` options, `show()`, the protocol merge and emitters -/

/-- The `WebviewCompileOptions` fields the claims depend on.  `commands` and
`events` are optional maps (association lists keyed by property name), and the
two validation hooks are optional.  `validateData` may throw/reject (modelled
with `Except Err`) or complete with a JavaScript value whose truthiness is all
that could be observed; the result of `validateSubmit` is observed through
`JsVal.truthy`/`JsVal.awaited` only. -/
structure CompileOptions (C E D S Err : Type) where
  commands : Option (List (String × C))
  events : Option (List (String × E))
  validateData : Option (Option D → Except Err JsVal)
  validateSubmit : Option (S → JsVal)

/-- Result of a successful `show()` call before any event arrives: the panel
was created, the webview server was registered iff the descriptor declares a
`commands` map, and in that case the session's `init` handler is the closure
`async () => data`. -/
structure ShowSession (D S : Type) where
  panelCreated : Bool
  registered : Bool
  initHandler : Option (Unit → Option D)
  state : SessionState S

/-- The session built by the body of `show()` after `createVueWebview`:
`registerWebviewServer` runs only under `if (params.commands)`. -/
def mkShowSession {C E D S Err : Type} (p : CompileOptions C E D S Err)
    (data : Option D) : ShowSession D S :=
  { panelCreated := true
    registered := p.commands.isSome
    initHandler := if p.commands.isSome then some (fun _ => data) else none
    state := initialSession }

/-- The body of `show(data?)`: first `await params.validateData?.(data)` — a rejection
propagates and aborts before the panel is created; the hook's resolved value
is never inspected — then create the panel and wire up the session. -/
def show' {C E D S Err : Type} (p : CompileOptions C E D S Err)
    (data : Option D) : Except Err (ShowSession D S) :=
  match p.validateData with
  | some f =>
    match f data with
    | .error e => .error e
    | .ok _ => .ok (mkShowSession p data)
  | none => .ok (mkShowSession p data)

/-- How many panels a `show()` call created: `createVueWebview` is reached
only after the `validateData` await completed without throwing. -/
def panelsCreated {D S Err : Type} : Except Err (ShowSession D S) → Nat
  | .error _ => 0
  | .ok sess => if sess.panelCreated then 1 else 0

/-- An entry of the compiled instance's `protocol` object: one of the two
built-in placeholders (`submit: () => {}`, `init: () => ({} as D)`) or a
declared command or event spread over them. -/
inductive ProtoEntry (C E : Type) where
  | builtinSubmit
  | builtinInit
  | command (c : C)
  | event (e : E)
  deriving DecidableEq, Repr

/-- JavaScript property lookup on an object literal built by spreading
`{ submit, init, ...params.commands, ...params.events }`: a later spread wins
for a duplicated key.  Spreading `undefined` contributes nothing. -/
def protocolGet {C E D S Err : Type} (p : CompileOptions C E D S Err)
    (k : String) : Option (ProtoEntry C E) :=
  match (p.events.getD []).lookup k with
  | some e => some (.event e)
  | none =>
    match (p.commands.getD []).lookup k with
    | some c => some (.command c)
    | none =>
      if k = "submit" then some .builtinSubmit
      else if k = "init" then some .builtinInit
      else none

/-- The instance's `protocol` field: its entries, plus whether the source ever
applies `Object.freeze` to the merged object (it does not — the class member
is only declared `readonly` at the TypeScript level). -/
structure Protocol (C E : Type) where
  get : String → Option (ProtoEntry C E)
  frozen : Bool

/-- The member `public readonly protocol = { submit: () => {}, init: () => ({} as D),
...params.commands, ...params.events } as any` — no `Object.freeze` call. -/
def mkProtocol {C E D S Err : Type} (p : CompileOptions C E D S Err) :
    Protocol C E :=
  { get := protocolGet p, frozen := false }

/-- The constructor body's emitter loop: for each key of `params.events ?? {}`
allocate a fresh `vscode.EventEmitter`.  Allocation is modelled by a counter:
the emitter identity is the counter value at creation, and the second
component is the counter after the loop. -/
def mkEmitters : List String → Nat → List (String × Nat) × Nat
  | [], n => ([], n)
  | k :: ks, n =>
    let rest := mkEmitters ks (n + 1)
    ((k, n) :: rest.1, rest.2)

/-- One instance of the compiled anonymous class: its `emitters` field (one
freshly allocated emitter per declared event key) and its `protocol` field. -/
structure WebviewInstance (C E : Type) where
  emitters : List (String × Nat)
  protocol : Protocol C E

/-- The constructor `new CompiledWebview(context)`: builds `emitters` from the keys of
`params.events ?? {}`, threading the allocator so a later instance's emitters
are distinct from an earlier one's. -/
def constructInstance {C E D S Err : Type} (p : CompileOptions C E D S Err)
    (fresh : Nat) : WebviewInstance C E × Nat :=
  let r := mkEmitters ((p.events.getD []).map Prod.fst) fresh
  ({ emitters := r.1, protocol := mkProtocol p }, r.2)

/-! ## `resolveWebviewHtml` -/

/-- The pieces of a `vscode.Uri` that `resolveWebviewHtml` manipulates. -/
structure Uri where
  scheme : String
  authority : String
  path : String
  deriving DecidableEq, Repr

/-- Rendering `uri.toString()` for the scheme/authority/path fragment used here. -/
def Uri.render (u : Uri) : String :=
  u.scheme ++ "://" ++ u.authority ++ u.path

/-- The update `uri.with({ path })`. -/
def Uri.withPath (u : Uri) (p : String) : Uri :=
  { u with path := p }

/-- The argument object of `resolveWebviewHtml`: pre-rendered script and
stylesheet tags, the panel's `cspSource` token, the entry bundle name, and
the bundled main-script URI computed by `createVueWebview`. -/
structure HtmlParams where
  scripts : String
  stylesheets : String
  cspSource : String
  webviewJs : String
  main : Uri
  deriving DecidableEq, Repr

/-- Field `resolvedParams.connectSource`: starts as the string `none`; when the
dev-server environment variable is set it becomes `self ws:` with `self` in
CSP quote marks. -/
def resolvedConnectSource (localServer : Option Uri) : String :=
  match localServer with
  | some _ => "\x27self\x27 ws:"
  | none => "none"

/-- Field `resolvedParams.cspSource`: in dev-server mode the local server URL is
appended after the panel's own source
(`resolvedParams.cspSource = params.cspSource + " " + local.toString()`). -/
def resolvedCspSource (p : HtmlParams) (localServer : Option Uri) : String :=
  match localServer with
  | some l => p.cspSource ++ " " ++ l.render
  | none => p.cspSource

/-- Field `resolvedParams.main`: in dev-server mode the main script is the local
server URL with path `/<webviewJs>`; otherwise the bundled resource URI. -/
def resolvedMain (p : HtmlParams) (localServer : Option Uri) : String :=
  match localServer with
  | some l => (l.withPath ("/" ++ p.webviewJs)).render
  | none => p.main.render

/-- The template literal returned by `resolveWebviewHtml`, with the resolved
connect source, CSP source, and main-script URI interpolated. -/
def htmlTemplate (connectSource cspSource scripts stylesheets mainSrc : String) : String :=
  "<html>\n    <head>\n        <meta charset=\"UTF-8\">\n        <meta name=\"viewport\" content=\"width=device-width, initial-scale=1.0\">\n        \n        <meta\n            http-equiv=\"Content-Security-Policy\"\n            content=\n                \"default-src \x27none\x27;\n                connect-src " ++
    connectSource ++
    ";\n                img-src " ++
    cspSource ++
    " https:;\n                script-src " ++
    cspSource ++
    ";\n                style-src " ++
    cspSource ++
    " \x27unsafe-inline\x27;\n                font-src \x27self\x27 data:;\"\n        >\n    </head>\n    <body>\n        <div id=\"vue-app\"></div>\n        <!\x2D\x2D Dependencies \x2D\x2D>\n        " ++
    scripts ++
    "\n        " ++
    stylesheets ++
    "\n        <!\x2D\x2D Main \x2D\x2D>\n        <script src=\"" ++
    mainSrc ++
    "\"></script>\n    </body>\n</html>"

/-- The function `resolveWebviewHtml(params)`: `localServer` models
`process.env.WEBPACK_DEVELOPER_SERVER`, already parsed as a URI when set. -/
def resolveWebviewHtml (p : HtmlParams) (localServer : Option Uri) : String :=
  htmlTemplate (resolvedConnectSource localServer) (resolvedCspSource p localServer)
    p.scripts p.stylesheets (resolvedMain p localServer)

/-- Predicate `listHeadMatch pat cs`: `pat` is an initial segment of `cs`. -/
def listHeadMatch : List Char → List Char → Bool
  | [], _ => true
  | _ :: _, [] => false
  | p :: ps, c :: cs => p == c && listHeadMatch ps cs

/-- Predicate `listHasSub pat cs`: `pat` occurs contiguously somewhere in `cs`. -/
def listHasSub (pat : List Char) : List Char → Bool
  | [] => listHeadMatch pat []
  | c :: cs => listHeadMatch pat (c :: cs) || listHasSub pat cs

/-- Substring occurrence on strings (by their character lists). -/
def containsSub (s pat : String) : Bool :=
  listHasSub pat.data s.data

/-! ## Concrete sample descriptors and inputs (used to instantiate theorems) -/

/-- A descriptor with a `ping` command, two events and no validation hooks
(the `{id:"w1", name:"Test", webviewJs:"main.js", commands:{...}, events:{...}}`
shape from the spec's scenarios, with payloads coded as numbers). -/
def sampleOptions : CompileOptions Nat Nat Nat Nat Nat :=
  { commands := some [("ping", 0)]
    events := some [("onA", 1), ("onB", 2)]
    validateData := none
    validateSubmit := none }

/-- A descriptor declaring an event named `submit`, shadowing the built-in
placeholder in the spread. -/
def overrideOptions : CompileOptions Nat Nat Nat Nat Nat :=
  { commands := some [("ping", 0)]
    events := some [("submit", 5)]
    validateData := none
    validateSubmit := none }

/-- A descriptor whose `validateData` hook rejects with error code `9`. -/
def errOptions : CompileOptions Nat Nat Nat Nat Nat :=
  { commands := some [("ping", 0)]
    events := none
    validateData := some fun _ => .error 9
    validateSubmit := none }

/-- A descriptor whose `validateData` hook resolves with a falsy value. -/
def okOptions : CompileOptions Nat Nat Nat Nat Nat :=
  { commands := some [("ping", 0)]
    events := none
    validateData := some fun _ => .ok (.jsBool false)
    validateSubmit := none }

/-- A descriptor declaring no `commands` map at all. -/
def noCommandOptions : CompileOptions Nat Nat Nat Nat Nat :=
  { commands := none
    events := some [("onA", 1)]
    validateData := none
    validateSubmit := some fun _ => .promise true }

/-- The URL `http://localhost:9000`, the dev-server URL of the spec scenario. -/
def devUri : Uri :=
  { scheme := "http", authority := "localhost:9000", path := "" }

/-- Concrete `resolveWebviewHtml` arguments: the panel's CSP token and the
bundled main-script URI use the webview resource scheme. -/
def sampleHtmlParams : HtmlParams :=
  { scripts := ""
    stylesheets := ""
    cspSource := "vscode-resource://abc"
    webviewJs := "main.js"
    main := { scheme := "vscode-resource", authority := "", path := "/dist/main.js" } }

/-! ## Session lemmas -/

theorem resolvePromise_keeps {S : Type} {s : SessionState S} {r : Option S}
    (x : Option S) (h : s.result = some r) : (resolvePromise x s).result = some r := by
  simp [resolvePromise, h]

theorem onDisposeFired_keeps {S : Type} {s : SessionState S} {r : Option S}
    (h : s.result = some r) : (onDisposeFired s).result = some r := by
  unfold onDisposeFired
  split
  · exact resolvePromise_keeps _ h
  · exact h

theorem disposePanel_keeps {S : Type} {s : SessionState S} {r : Option S}
    (h : s.result = some r) : (disposePanel s).result = some r := by
  unfold disposePanel
  split
  · exact h
  · exact onDisposeFired_keeps h

theorem submitHandler_keeps {S : Type} {s : SessionState S} {r : Option S}
    (vs : Option (S → JsVal)) (v : S) (h : s.result = some r) :
    (submitHandler vs v s).result = some r := by
  unfold submitHandler
  split
  · exact resolvePromise_keeps _ (disposePanel_keeps h)
  · exact h

theorem step_keeps {S : Type} {s : SessionState S} {r : Option S}
    (reg : Bool) (vs : Option (S → JsVal)) (e : SEvent S) (h : s.result = some r) :
    (step reg vs s e).result = some r := by
  cases e with
  | dispose => exact disposePanel_keeps h
  | submit v =>
    simp only [step]
    split
    · exact submitHandler_keeps vs v h
    · exact h

theorem run_keeps {S : Type} {r : Option S}
    (reg : Bool) (vs : Option (S → JsVal)) (evs : List (SEvent S)) :
    ∀ s : SessionState S, s.result = some r → (run reg vs s evs).result = some r := by
  induction evs with
  | nil => intro s h; exact h
  | cons e rest ih =>
    intro s h
    exact ih (step reg vs s e) (step_keeps reg vs e h)

/-- Invariant of reachable session states: while the promise is pending, the
dispose listener is still attached and the panel is still open. -/
def pendingOpen {S : Type} (s : SessionState S) : Prop :=
  s.result = none → s.disposeListenerActive = true ∧ s.panelDisposed = false

theorem pendingOpen_initial {S : Type} : pendingOpen (initialSession (S := S)) := by
  intro _
  exact ⟨rfl, rfl⟩

theorem pendingOpen_step {S : Type} (reg : Bool) (vs : Option (S → JsVal))
    (s : SessionState S) (e : SEvent S) (h : pendingOpen s) :
    pendingOpen (step reg vs s e) := by
  rcases hres : s.result with _ | r
  · obtain ⟨hdl, hpd⟩ := h hres
    obtain ⟨res, dl, pd⟩ := s
    simp only at hres hdl hpd
    subst hres hdl hpd
    cases e with
    | dispose =>
      intro hafter
      simp [step, disposePanel, onDisposeFired, resolvePromise] at hafter
    | submit v =>
      cases reg with
      | false => intro _; exact ⟨rfl, rfl⟩
      | true =>
        intro hafter
        by_cases hc : ((validateVal vs v).truthy && (validateVal vs v).awaited) = true
        · simp [step, submitHandler, hc, disposePanel, onDisposeFired,
            resolvePromise] at hafter
        · simp [step, submitHandler, hc]
  · intro hafter
    rw [step_keeps reg vs e hres] at hafter
    exact absurd hafter (by simp)

theorem pendingOpen_run {S : Type} (reg : Bool) (vs : Option (S → JsVal))
    (evs : List (SEvent S)) :
    ∀ s : SessionState S, pendingOpen s → pendingOpen (run reg vs s evs) := by
  induction evs with
  | nil => intro s h; exact h
  | cons e rest ih =>
    intro s h
    exact ih (step reg vs s e) (pendingOpen_step reg vs s e h)

theorem JsVal.truthy_of_awaited {v : JsVal} (h : v.awaited = true) : v.truthy = true := by
  cases v <;> simp_all [JsVal.truthy, JsVal.awaited]

theorem disposePanel_result_of_inactive {S : Type} {s : SessionState S}
    (h : s.disposeListenerActive = false) : (disposePanel s).result = s.result := by
  unfold disposePanel onDisposeFired
  split
  · rfl
  · simp [h]

/-- Invariant of sessions whose webview server was never registered: the only
resolution ever reachable is `undefined` (via disposal). -/
def undefOnly {S : Type} (s : SessionState S) : Prop :=
  s.result = none ∨ s.result = some none

theorem undefOnly_step {S : Type} (vs : Option (S → JsVal)) (s : SessionState S)
    (e : SEvent S) (h : undefOnly s) : undefOnly (step false vs s e) := by
  cases e with
  | dispose =>
    rcases h with h | h
    · simp only [step, disposePanel, onDisposeFired, resolvePromise, undefOnly]
      split
      · exact Or.inl h
      · split
        · split
          · simp_all
          · simp_all
        · exact Or.inl h
    · exact Or.inr (disposePanel_keeps h)
  | submit v =>
    simpa [step] using h

theorem undefOnly_run {S : Type} (vs : Option (S → JsVal)) (evs : List (SEvent S)) :
    ∀ s : SessionState S, undefOnly s → undefOnly (run false vs s evs) := by
  induction evs with
  | nil => intro s h; exact h
  | cons e rest ih =>
    intro s h
    exact ih (step false vs s e) (undefOnly_step vs s e h)

/-! ## Emitter-allocation lemmas -/

theorem mkEmitters_length (ks : List String) (n : Nat) :
    (mkEmitters ks n).1.length = ks.length := by
  induction ks generalizing n with
  | nil => rfl
  | cons k ks ih => simp [mkEmitters, ih]

theorem mkEmitters_keys (ks : List String) (n : Nat) :
    (mkEmitters ks n).1.map Prod.fst = ks := by
  induction ks generalizing n with
  | nil => rfl
  | cons k ks ih => simp [mkEmitters, ih]

theorem mkEmitters_counter (ks : List String) (n : Nat) :
    (mkEmitters ks n).2 = n + ks.length := by
  induction ks generalizing n with
  | nil => simp [mkEmitters]
  | cons k ks ih => simp [mkEmitters, ih]; omega

theorem mkEmitters_ids_bounds (ks : List String) (n : Nat) :
    ∀ x ∈ (mkEmitters ks n).1.map Prod.snd, n ≤ x ∧ x < n + ks.length := by
  induction ks generalizing n with
  | nil => intro x hx; simp [mkEmitters] at hx
  | cons k ks ih =>
    intro x hx
    simp only [mkEmitters, List.map_cons, List.mem_cons] at hx
    rcases hx with rfl | hx
    · constructor
      · exact Nat.le_refl x
      · simp [Nat.lt_add_of_pos_right, Nat.succ_pos]
    · obtain ⟨h1, h2⟩ := ih (n + 1) x hx
      constructor
      · omega
      · simp only [List.length_cons]
        omega

/-- A successful `show'` always yields the session built by `mkShowSession`:
the body after the `validateData` await does not depend on the hook's value. -/
theorem show'_ok {C E D S Err : Type} {p : CompileOptions C E D S Err}
    {data : Option D} {sess : ShowSession D S}
    (h : show' p data = .ok sess) : sess = mkShowSession p data := by
  rcases hvd : p.validateData with _ | f
  · simp [show', hvd] at h
    exact h.symm
  · rcases hres : f data with e | w
    · simp [show', hvd, hres] at h
    · simp [show', hvd, hres] at h
      exact h.symm

/-! ## Claims -/

/-- C1 (counterexample): with no `validateSubmit` hook declared, a remote
`submit 5` on a fresh registered session does NOT resolve the promise with 5
— it leaves the promise pending, because
`const validate = params.validateSubmit?.(response)` is `undefined` and the
guard `if (validate && (await validate))` short-circuits to false.  The claim
states the promise resolves with the submitted value in this case. -/
theorem claim1_counterexample :
    (step true (none : Option (Nat → JsVal)) (initialSession (S := Nat))
        (SEvent.submit 5)).result = none ∧
    (step true (none : Option (Nat → JsVal)) (initialSession (S := Nat))
        (SEvent.submit 5)).result ≠ some (some 5) := by
  constructor
  · rfl
  · decide

/-- C1 (amended): for a session with a registered server, a remote `submit v`
resolves the pending promise with `v` whenever a `validateSubmit` hook IS
declared and its result, awaited, is truthy; with no declared hook `submit`
never resolves (see the counterexample). -/
theorem claim1_submit_resolves {S : Type} (f : S → JsVal) (v : S)
    (s : SessionState S) (hpending : s.result = none) (hok : (f v).awaited = true) :
    (step true (some f) s (SEvent.submit v)).result = some (some v) := by
  have htruthy : (f v).truthy = true := JsVal.truthy_of_awaited hok
  have hval : validateVal (some f) v = f v := rfl
  simp only [step, if_pos rfl, submitHandler, hval, htruthy, hok, Bool.and_self,
    if_pos rfl]
  have hres : (disposePanel { s with disposeListenerActive := false }).result = none := by
    rw [disposePanel_result_of_inactive rfl]
    exact hpending
  simp [resolvePromise, hres]

/-- C1 (witness): a concrete hook resolving truthy lets `submit 7` resolve
the fresh session with `7`. -/
theorem claim1_witness :
    (step true (some fun _ : Nat => JsVal.promise true) (initialSession (S := Nat))
        (SEvent.submit 7)).result = some (some 7) :=
  claim1_submit_resolves (fun _ : Nat => JsVal.promise true) 7 initialSession rfl rfl

/-- C2: a session's promise resolves at most once.  Once the result is
`some r` (resolved, with a value or with `undefined`), no further sequence of
disposal events or submit calls changes it: every resolution path goes through
`resolvePromise`, which is a no-op on an already-resolved promise, and the
submit path additionally detaches the dispose listener first. -/
theorem claim2_resolve_at_most_once {S : Type} (reg : Bool)
    (vs : Option (S → JsVal)) (s : SessionState S) (r : Option S)
    (evs : List (SEvent S)) (h : s.result = some r) :
    (run reg vs s evs).result = some r :=
  run_keeps reg vs evs s h

/-- C2 (witness): after a successful `submit 3` resolution, a disposal event
simulating the race does not overwrite the result with `undefined`. -/
theorem claim2_witness :
    (run true (some fun _ : Nat => JsVal.jsBool true)
        (step true (some fun _ : Nat => JsVal.jsBool true) (initialSession (S := Nat))
          (SEvent.submit 3))
        [SEvent.dispose]).result = some (some 3) :=
  claim2_resolve_at_most_once true (some fun _ : Nat => JsVal.jsBool true)
    (step true (some fun _ : Nat => JsVal.jsBool true) (initialSession (S := Nat))
      (SEvent.submit 3))
    (some 3) [SEvent.dispose] (by decide)

/-- C3: if the host panel signals disposal while the promise of a session
started by `show()` is still pending (after any trace of prior events), the
promise resolves with `undefined`: the `onDidDispose` listener registered by
`show()` is still attached and calls `resolve(undefined)`. -/
theorem claim3_dispose_resolves_undefined {S : Type} (reg : Bool)
    (vs : Option (S → JsVal)) (evs : List (SEvent S))
    (hpending : (run reg vs (initialSession (S := S)) evs).result = none) :
    (step reg vs (run reg vs (initialSession (S := S)) evs) SEvent.dispose).result =
      some none := by
  have hinv := pendingOpen_run reg vs evs initialSession pendingOpen_initial
  obtain ⟨hdl, hpd⟩ := hinv hpending
  simp [step, disposePanel, hpd, onDisposeFired, hdl, resolvePromise, hpending]

/-- C3 (witness): disposing the panel right after `show()` resolves the fresh
session with `undefined`. -/
theorem claim3_witness :
    (step true (none : Option (Nat → JsVal))
        (run true none (initialSession (S := Nat)) []) SEvent.dispose).result =
      some none :=
  claim3_dispose_resolves_undefined true none [] rfl

/-- C4: if the declared `validateSubmit` hook's awaited result is falsy, the
remote `submit` call leaves the session state completely unchanged: the
promise stays pending, the dispose listener stays attached, and the panel is
not disposed, so a later submit or disposal can still resolve the session. -/
theorem claim4_falsy_validation_keeps_session {S : Type} (f : S → JsVal) (v : S)
    (s : SessionState S) (hfalsy : (f v).awaited = false) :
    step true (some f) s (SEvent.submit v) = s := by
  have hval : validateVal (some f) v = f v := rfl
  simp [step, submitHandler, hval, hfalsy]

/-- C4 (witness): a hook resolving falsy leaves the fresh session untouched. -/
theorem claim4_witness :
    step true (some fun _ : Nat => JsVal.promise false) (initialSession (S := Nat))
        (SEvent.submit 1) = initialSession :=
  claim4_falsy_validation_keeps_session (fun _ : Nat => JsVal.promise false) 1
    initialSession rfl

/-- C5: for every successful `show'(data)` on a descriptor with a declared
`commands` map, the registered `init` handler is the closure `async () => data`
and invoking it with zero arguments returns exactly the `data` passed to that
`show'` call — including `undefined` (`data = none`) — untouched by any
validation hook. -/
theorem claim5_init_returns_initial_data {C E D S Err : Type}
    (p : CompileOptions C E D S Err) (data : Option D) (c : List (String × C))
    (sess : ShowSession D S) (hc : p.commands = some c)
    (hshow : show' p data = .ok sess) :
    ∃ h : Unit → Option D, sess.initHandler = some h ∧ h () = data := by
  have hsess : sess = mkShowSession p data := show'_ok hshow
  subst hsess
  refine ⟨fun _ => data, ?_, rfl⟩
  simp [mkShowSession, hc]

/-- C5 (witness): calling `show'` with initial data `42` on the sample descriptor
registers an `init` returning `42`. -/
theorem claim5_witness :
    ∃ h : Unit → Option Nat,
      (mkShowSession sampleOptions (some 42)).initHandler = some h ∧ h () = some 42 :=
  claim5_init_returns_initial_data sampleOptions (some 42) [("ping", 0)]
    (mkShowSession sampleOptions (some 42)) rfl rfl

/-- C6: constructing an instance yields exactly one emitter per key declared
in the descriptor's event map (`params.events ?? {}`), in declaration order,
and the emitters of a second instance — constructed with the allocator state
left by the first — are all distinct from the first instance's emitters: no
emitter object is shared between two instances. -/
theorem claim6_fresh_emitters_per_instance {C E D S Err : Type}
    (p q : CompileOptions C E D S Err) (n : Nat) :
    (constructInstance p n).1.emitters.length = (p.events.getD []).length ∧
    (constructInstance p n).1.emitters.map Prod.fst = (p.events.getD []).map Prod.fst ∧
    (∀ x, x ∈ (constructInstance p n).1.emitters.map Prod.snd →
      x ∉ (constructInstance q (constructInstance p n).2).1.emitters.map Prod.snd) := by
  refine ⟨?_, ?_, ?_⟩
  · simpa [constructInstance] using
      mkEmitters_length ((p.events.getD []).map Prod.fst) n
  · simpa [constructInstance] using
      mkEmitters_keys ((p.events.getD []).map Prod.fst) n
  · intro x hx hx'
    simp only [constructInstance] at hx hx'
    obtain ⟨_, hlt⟩ := mkEmitters_ids_bounds _ n x hx
    obtain ⟨hge, _⟩ := mkEmitters_ids_bounds _ _ x hx'
    rw [mkEmitters_counter] at hge
    simp only [List.length_map] at hlt hge
    omega

/-- C6 (witness): emitter `0` of a first sample instance does not occur among
the emitters of a second instance constructed afterwards. -/
theorem claim6_witness :
    (0 : Nat) ∉
      (constructInstance sampleOptions
          (constructInstance sampleOptions 0).2).1.emitters.map Prod.snd :=
  (claim6_fresh_emitters_per_instance sampleOptions sampleOptions 0).2.2 0 (by decide)

/-- C8: the function `show'` awaits a declared `validateData` hook before creating the
panel.  A rejection propagates to the caller and no panel is created; any
non-throwing completion — in particular a falsy resolved value — is never
inspected, and panel creation proceeds. -/
theorem claim8_validate_data_semantics {C E D S Err : Type}
    (p : CompileOptions C E D S Err) (data : Option D)
    (f : Option D → Except Err JsVal) (e : Err) (w : JsVal)
    (hf : p.validateData = some f) :
    (f data = .error e →
      show' p data = .error e ∧ panelsCreated (show' p data) = 0) ∧
    (f data = .ok w →
      show' p data = .ok (mkShowSession p data) ∧
        panelsCreated (show' p data) = 1) := by
  constructor
  · intro herr
    constructor
    · simp [show', hf, herr]
    · simp [show', hf, herr, panelsCreated]
  · intro hok
    constructor
    · simp [show', hf, hok]
    · simp [show', hf, hok, panelsCreated, mkShowSession]

/-- C8 (witness): a rejecting hook makes `show'` reject with the hook's error
and creates no panel; a hook resolving falsy still leads to panel creation. -/
theorem claim8_witness :
    (show' errOptions (some 1) = .error 9 ∧
      panelsCreated (show' errOptions (some 1)) = 0) ∧
    (show' okOptions none = .ok (mkShowSession okOptions none) ∧
      panelsCreated (show' okOptions none) = 1) :=
  ⟨(claim8_validate_data_semantics errOptions (some 1) (fun _ => .error 9) 9
      (.jsBool false) rfl).1 rfl,
    (claim8_validate_data_semantics okOptions none (fun _ => .ok (.jsBool false)) 9
      (.jsBool false) rfl).2 rfl⟩

/-- C10: when the descriptor declares no `commands` map, `show'` registers no
webview server (no `init` handler exists), and no trace of disposal or submit
events can ever resolve the session's promise with a value — the only
possible resolution is `undefined` via disposal. -/
theorem claim10_no_commands_only_undefined {C E D S Err : Type}
    (p : CompileOptions C E D S Err) (data : Option D) (sess : ShowSession D S)
    (hc : p.commands = none) (hshow : show' p data = .ok sess) :
    sess.registered = false ∧ sess.initHandler = none ∧
      ∀ (evs : List (SEvent S)) (v : S),
        (run sess.registered p.validateSubmit sess.state evs).result ≠ some (some v) := by
  have hsess : sess = mkShowSession p data := show'_ok hshow
  subst hsess
  have hreg : (mkShowSession p data).registered = false := by
    simp [mkShowSession, hc]
  refine ⟨hreg, by simp [mkShowSession, hc], ?_⟩
  intro evs v hval
  rw [hreg] at hval
  have h0 : undefOnly (initialSession (S := S)) := Or.inl rfl
  have := undefOnly_run p.validateSubmit evs (mkShowSession p data).state
    (by simpa [mkShowSession] using h0)
  rcases this with h | h <;> simp_all [mkShowSession]

/-- C10 (witness): with no commands declared, a dispose-then-submit trace on
the resulting session never produces the value `3`. -/
theorem claim10_witness :
    (run (mkShowSession noCommandOptions (none : Option Nat)).registered
        noCommandOptions.validateSubmit
        (mkShowSession noCommandOptions (none : Option Nat)).state
        [SEvent.dispose, SEvent.submit 3]).result ≠ some (some 3) :=
  (claim10_no_commands_only_undefined noCommandOptions none
      (mkShowSession noCommandOptions none) rfl rfl).2.2
    [SEvent.dispose, SEvent.submit 3] 3

set_option maxRecDepth 100000 in
/-- C7 (counterexample): in dev-server mode the CSP source used for
`img-src`/`script-src`/`style-src` is NOT rewritten to point at the local
server *instead of* the bundled resource: the source appends the dev-server
URL after the panel's own CSP source
(`resolvedParams.cspSource = params.cspSource + " " + local.toString()`), so
the bundled resource origin still appears in the generated document. -/
theorem claim7_counterexample :
    resolvedCspSource sampleHtmlParams (some devUri) =
      "vscode-resource://abc http://localhost:9000" ∧
    resolvedCspSource sampleHtmlParams (some devUri) ≠ devUri.render ∧
    containsSub (resolveWebviewHtml sampleHtmlParams (some devUri))
      "script-src vscode-resource://abc http://localhost:9000;" = true := by
  refine ⟨rfl, by decide, by decide⟩

set_option maxRecDepth 100000 in
/-- C7 (amended): when the dev-server environment variable is set to a URL,
the generated document has `connect-src` set to `self ws:` (with `self` in CSP quote marks), the main script src
is that URL with path `/<webviewJs>`, and the dev-server URL is appended to
the CSP source used for `img-src`/`script-src`/`style-src` (in addition to,
not instead of, the bundled resource origin); when the variable is unset,
`connect-src` is `none`, the main script is the panel's bundled resource URI,
and `ws:` does not appear in the document. -/
theorem claim7_dev_server_html (p : HtmlParams) (l : Uri) :
    resolvedConnectSource (some l) = "\x27self\x27 ws:" ∧
    resolvedMain p (some l) = (l.withPath ("/" ++ p.webviewJs)).render ∧
    resolvedCspSource p (some l) = p.cspSource ++ " " ++ l.render ∧
    resolvedConnectSource none = "none" ∧
    resolvedMain p none = p.main.render ∧
    resolvedCspSource p none = p.cspSource ∧
    containsSub (resolveWebviewHtml sampleHtmlParams (some devUri))
      "<script src=\"http://localhost:9000/main.js\"></script>" = true ∧
    containsSub (resolveWebviewHtml sampleHtmlParams (some devUri))
      "connect-src \x27self\x27 ws:;" = true ∧
    containsSub (resolveWebviewHtml sampleHtmlParams none) "ws:" = false ∧
    containsSub (resolveWebviewHtml sampleHtmlParams none) "connect-src none;" = true ∧
    containsSub (resolveWebviewHtml sampleHtmlParams none)
      "<script src=\"vscode-resource:///dist/main.js\"></script>" = true := by
  exact ⟨rfl, rfl, rfl, rfl, rfl, rfl, by decide, by decide, by decide, by decide,
    by decide⟩

/-- C9 (counterexample): the compiled instance's `protocol` object is not
frozen — the source assigns the merged object literal to a `readonly` class
field but never applies `Object.freeze` to it. -/
theorem claim9_counterexample : (mkProtocol sampleOptions).frozen = false := rfl

/-- C9 (amended): the instance's `protocol` field is the (non-frozen) merge
`{ submit: () => {}, init: () => ({}), ...params.commands, ...params.events }`:
declared events override declared commands and both override the two
built-ins at equal keys; keys declared nowhere fall back to the built-in
`submit`/`init` placeholders and otherwise are absent. -/
theorem claim9_protocol_merge {C E D S Err : Type}
    (p : CompileOptions C E D S Err) (k : String) :
    (mkProtocol p).frozen = false ∧
    (∀ e, (p.events.getD []).lookup k = some e →
      (mkProtocol p).get k = some (.event e)) ∧
    (∀ c, (p.events.getD []).lookup k = none →
      (p.commands.getD []).lookup k = some c →
      (mkProtocol p).get k = some (.command c)) ∧
    ((p.events.getD []).lookup k = none → (p.commands.getD []).lookup k = none →
      k = "submit" → (mkProtocol p).get k = some .builtinSubmit) ∧
    ((p.events.getD []).lookup k = none → (p.commands.getD []).lookup k = none →
      k = "init" → (mkProtocol p).get k = some .builtinInit) ∧
    ((p.events.getD []).lookup k = none → (p.commands.getD []).lookup k = none →
      k ≠ "submit" → k ≠ "init" → (mkProtocol p).get k = none) := by
  refine ⟨rfl, ?_, ?_, ?_, ?_, ?_⟩
  · intro e he
    simp [mkProtocol, protocolGet, he]
  · intro c he hc
    simp [mkProtocol, protocolGet, he, hc]
  · intro he hc hk
    subst hk
    simp [mkProtocol, protocolGet, he, hc]
  · intro he hc hk
    subst hk
    simp [mkProtocol, protocolGet, he, hc]
  · intro he hc hk1 hk2
    simp [mkProtocol, protocolGet, he, hc, hk1, hk2]

/-- C9 (witness): an event declared under the key `submit` overrides the
built-in `submit` placeholder in the merged protocol. -/
theorem claim9_witness :
    (mkProtocol overrideOptions).get "submit" = some (.event 5) :=
  (claim9_protocol_merge overrideOptions "submit").2.1 5 (by decide)

end Webview
